import Mathlib

/-!
Verification development for the AWS Elastic Beanstalk resource detector
(packages/opentelemetry-resource-detector-aws/src/detectors/AwsBeanstalkDetector.ts)
and the resource-attribute model it feeds.

The detector reads a platform configuration file, parses it as JSON, and
builds a resource attribute set from fixed semantic-convention constants and
three fields of the parsed document. Everything runs inside a try/catch that
converts any failure into the empty resource.
-/

namespace AwsBeanstalk

/-- A JavaScript/JSON value, as produced by the JSON.parse builtin. -/
inductive JSVal where
  | jsNull : JSVal
  | jsBool (b : Bool) : JSVal
  | jsNum (n : Int) : JSVal
  | jsStr (s : String) : JSVal
  | jsArr (elems : List JSVal) : JSVal
  | jsObj (fields : List (String × JSVal)) : JSVal

/-- The opening-brace character, written by code point to keep string and
character literals free of braces. -/
def lbrace : Char := Char.ofNat 123

/-- The closing-brace character. -/
def rbrace : Char := Char.ofNat 125

/-- Skip JSON whitespace. -/
def skipWs : List Char → List Char
  | c :: rest =>
      if c = ' ' ∨ c = '\t' ∨ c = '\n' ∨ c = '\r' then skipWs rest else c :: rest
  | [] => []

/-- Parse the body of a JSON string literal, after the opening quote.
Returns the decoded string and the remaining input. Supports the escape
sequences needed here; unknown escapes fail. -/
def parseStringBody : List Char → Option (String × List Char)
  | [] => none
  | '"' :: rest => some ("", rest)
  | '\\' :: [] => none
  | '\\' :: e :: rest =>
      let esc : Option Char :=
        if e = '"' then some '"'
        else if e = '\\' then some '\\'
        else if e = '/' then some '/'
        else if e = 'n' then some '\n'
        else if e = 't' then some '\t'
        else if e = 'r' then some '\r'
        else none
      match esc with
      | none => none
      | some ch =>
          match parseStringBody rest with
          | none => none
          | some (s, rem) => some (⟨ch :: s.data⟩, rem)
  | c :: rest =>
      match parseStringBody rest with
      | none => none
      | some (s, rem) => some (⟨c :: s.data⟩, rem)

/-- Take a maximal run of decimal digits. -/
def takeDigits : List Char → (List Char × List Char)
  | c :: rest =>
      if c.isDigit then
        let p := takeDigits rest
        (c :: p.1, p.2)
      else ([], c :: rest)
  | [] => ([], [])

/-- Decimal digits to a natural number. -/
def digitsToNat (ds : List Char) : Nat :=
  ds.foldl (fun acc c => acc * 10 + (c.toNat - 48)) 0

/-- Match a literal character sequence at the head of the input. -/
def stripLit : List Char → List Char → Option (List Char)
  | [], rest => some rest
  | _ :: _, [] => none
  | l :: ls, c :: cs => if c = l then stripLit ls cs else none

mutual

/-- Parse one JSON value (fuel-bounded recursive descent). Models the
JSON.parse builtin on the documents relevant here: objects, arrays,
strings, integers, true, false, null. -/
def parseVal : Nat → List Char → Option (JSVal × List Char)
  | 0, _ => none
  | fuel + 1, input =>
      match skipWs input with
      | [] => none
      | c :: rest =>
          if c = '"' then
            match parseStringBody rest with
            | none => none
            | some (s, rem) => some (.jsStr s, rem)
          else if c = lbrace then
            match skipWs rest with
            | d :: rem =>
                if d = rbrace then some (.jsObj [], rem)
                else
                  match parseMembers fuel (d :: rem) with
                  | none => none
                  | some (fs, rem2) => some (.jsObj fs, rem2)
            | [] => none
          else if c = '[' then
            match skipWs rest with
            | d :: rem =>
                if d = ']' then some (.jsArr [], rem)
                else
                  match parseElems fuel (d :: rem) with
                  | none => none
                  | some (es, rem2) => some (.jsArr es, rem2)
            | [] => none
          else if c = 't' then
            match stripLit ['r', 'u', 'e'] rest with
            | none => none
            | some rem => some (.jsBool true, rem)
          else if c = 'f' then
            match stripLit ['a', 'l', 's', 'e'] rest with
            | none => none
            | some rem => some (.jsBool false, rem)
          else if c = 'n' then
            match stripLit ['u', 'l', 'l'] rest with
            | none => none
            | some rem => some (.jsNull, rem)
          else if c = '-' then
            match takeDigits rest with
            | ([], _) => none
            | (ds, rem) => some (.jsNum (-(digitsToNat ds : Int)), rem)
          else if c.isDigit then
            match takeDigits (c :: rest) with
            | ([], _) => none
            | (ds, rem) => some (.jsNum (digitsToNat ds), rem)
          else none

/-- Parse one or more object members (key : value), comma separated,
up to and including the closing brace. -/
def parseMembers : Nat → List Char → Option (List (String × JSVal) × List Char)
  | 0, _ => none
  | fuel + 1, input =>
      match skipWs input with
      | '"' :: rest =>
          match parseStringBody rest with
          | none => none
          | some (k, rem) =>
              match skipWs rem with
              | ':' :: rem2 =>
                  match parseVal fuel rem2 with
                  | none => none
                  | some (v, rem3) =>
                      match skipWs rem3 with
                      | ',' :: rem4 =>
                          match parseMembers fuel rem4 with
                          | none => none
                          | some (fs, rem5) => some ((k, v) :: fs, rem5)
                      | d :: rem4 =>
                          if d = rbrace then some ([(k, v)], rem4) else none
                      | [] => none
              | _ => none
      | _ => none

/-- Parse one or more array elements, comma separated, up to and including
the closing bracket. -/
def parseElems : Nat → List Char → Option (List JSVal × List Char)
  | 0, _ => none
  | fuel + 1, input =>
      match parseVal fuel input with
      | none => none
      | some (v, rem) =>
          match skipWs rem with
          | ',' :: rem2 =>
              match parseElems fuel rem2 with
              | none => none
              | some (es, rem3) => some (v :: es, rem3)
          | ']' :: rem2 => some ([v], rem2)
          | _ => none

end

/-- The JSON.parse builtin: parse a whole string as a single JSON document,
rejecting trailing garbage. Returns none where JSON.parse throws. -/
def jsonParse (s : String) : Option JSVal :=
  match parseVal (s.length + 1) s.data with
  | some (v, rest) => if (skipWs rest).isEmpty then some v else none
  | none => none

/-- JavaScript property access `v.k` on a value known not to be null or
undefined: on an object it yields the bound value (for duplicate keys,
JSON.parse keeps the last binding), on any other value it yields undefined
(`none`). Access on null throws and is handled separately at the call site. -/
def jsMember (v : JSVal) (k : String) : Option JSVal :=
  match v with
  | .jsObj fields => ((fields.filter (fun p => p.1 = k)).getLast?).map (fun p => p.2)
  | _ => none

/- Semantic-convention constants, from the @opentelemetry/semantic-conventions
package (not under src/): the key and value strings named by the spec. -/

/-- Key SemanticResourceAttributes.CLOUD_PROVIDER. -/
def CLOUD_PROVIDER : String := "cloud.provider"

/-- Key SemanticResourceAttributes.CLOUD_PLATFORM. -/
def CLOUD_PLATFORM : String := "cloud.platform"

/-- Key SemanticResourceAttributes.SERVICE_NAME. -/
def SERVICE_NAME : String := "service.name"

/-- Key SemanticResourceAttributes.SERVICE_NAMESPACE. -/
def SERVICE_NAMESPACE : String := "service.namespace"

/-- Key SemanticResourceAttributes.SERVICE_VERSION. -/
def SERVICE_VERSION : String := "service.version"

/-- Key SemanticResourceAttributes.SERVICE_INSTANCE_ID. -/
def SERVICE_INSTANCE_ID : String := "service.instance.id"

/-- Value CloudProviderValues.AWS. -/
def CLOUD_PROVIDER_AWS : String := "aws"

/-- Value CloudPlatformValues.AWS_ELASTIC_BEANSTALK. -/
def AWS_ELASTIC_BEANSTALK : String := "aws_elastic_beanstalk"

/-- Modelled from the spec: the Resource class of @opentelemetry/resources is
not under src/. An AttributeSet held as the ordered key/value entries of the
JavaScript object handed to the Resource constructor; a value of `none`
records a key that is present but bound to undefined, exactly as a JS object
literal records a property whose initializer evaluated to undefined. -/
structure Resource where
  attributes : List (String × Option JSVal)

/-- Modelled from the spec: Resource.empty(), the distinguished
"no information" AttributeSet. -/
def Resource.empty : Resource := ⟨[]⟩

/-- Look up a key: `none` means the key is absent, `some none` means the key
is present bound to undefined, `some (some v)` means it is bound to `v`. -/
def Resource.lookup (r : Resource) (k : String) : Option (Option JSVal) :=
  (r.attributes.find? (fun p => p.1 = k)).map (fun p => p.2)

/-- Modelled from the spec: ResourceDetectionConfig of @opentelemetry/resources
is not under src/. Only policy knobs named by the spec (a per-detector
timeout and a concurrency flag); the detector ignores its config argument. -/
structure ResourceDetectionConfig where
  timeoutMillis : Option Nat
  runConcurrently : Bool
deriving DecidableEq

/-- The filesystem as the detector observes it through fs.access and
fs.readFile on BEANSTALK_CONF_PATH: whether the access(R_OK) probe resolves,
and, if reading is attempted, whether it resolves and with which content. -/
structure FsEnv where
  accessOk : Bool
  readResult : Option String

/-- The I/O and parsing steps the detector performs, in order. -/
inductive Op where
  | accessCheck : Op
  | readFile : Op
  | parseJson : Op
deriving DecidableEq

/-- The Resource built by the success path of AwsBeanstalkDetector.detect:
the Resource constructor applied to the object literal of the source. The
last three properties are field accesses on parsedData; when a field is
absent the access evaluates to undefined and the literal still records the
key, bound to undefined. -/
def successResource (parsedData : JSVal) : Resource :=
  ⟨[(CLOUD_PROVIDER, some (.jsStr CLOUD_PROVIDER_AWS)),
    (CLOUD_PLATFORM, some (.jsStr AWS_ELASTIC_BEANSTALK)),
    (SERVICE_NAME, some (.jsStr AWS_ELASTIC_BEANSTALK)),
    (SERVICE_NAMESPACE, jsMember parsedData "environment_name"),
    (SERVICE_VERSION, jsMember parsedData "version_label"),
    (SERVICE_INSTANCE_ID, jsMember parsedData "deployment_id")]⟩

/-- The body of AwsBeanstalkDetector.detect (the statements inside the try
block), as an Except value: `.error` marks the points where the original code
throws or awaits a rejected promise, paired with the trace of operations
performed up to that point. Line by line: await fileAccessAsync (rejects when
not read-accessible), await readFileAsync (rejects on read failure),
JSON.parse (throws on malformed input), then the Resource constructor call on
an object literal whose last three properties read fields of parsedData
(property access on null throws a TypeError; on any other non-object it
yields undefined, and the literal still records every key). -/
def detectBodyRun (env : FsEnv) : Except String Resource × List Op :=
  if env.accessOk = false then
    (.error "access denied", [.accessCheck])
  else
    match env.readResult with
    | none => (.error "read failed", [.accessCheck, .readFile])
    | some rawData =>
        match jsonParse rawData with
        | none => (.error "JSON.parse SyntaxError", [.accessCheck, .readFile, .parseJson])
        | some .jsNull =>
            (.error "TypeError: cannot read properties of null",
             [.accessCheck, .readFile, .parseJson])
        | some parsedData =>
            (.ok (successResource parsedData),
             [.accessCheck, .readFile, .parseJson])

/-- The try-block body alone. -/
def detectBody (env : FsEnv) : Except String Resource :=
  (detectBodyRun env).1

/-- The operations the detector attempted. -/
def detectOps (env : FsEnv) : List Op :=
  (detectBodyRun env).2

/-- AwsBeanstalkDetector.detect: the try/catch wrapper. The catch clause logs
a debug message (fire-and-forget, no observable effect here) and returns
Resource.empty(). The config parameter is the unused `_config`. -/
def detect (_config : Option ResourceDetectionConfig) (env : FsEnv) : Resource :=
  match detectBody env with
  | .ok r => r
  | .error _ => Resource.empty

/-- Modelled from the spec: the AttributeSet data model of section 3 (the
Resource merge machinery of @opentelemetry/resources is not under src/): a
finite mapping from attribute keys to scalar values, `none` meaning the key
is absent or empty. -/
def AttrSet := String → Option JSVal

/-- Modelled from the spec: the empty AttributeSet. -/
def AttrSet.empty : AttrSet := fun _ => none

/-- Modelled from the spec: merge(a, b) resolves keys present in both by
last-writer-wins (the later value of b), except that a key absent or empty in
b keeps the value of a — a non-empty value is never overwritten by an
empty or absent one. -/
def AttrSet.merge (a b : AttrSet) : AttrSet :=
  fun k =>
    match b k with
    | some v => some v
    | none => a k

/-- An AttributeSet holding one key. -/
def AttrSet.single (k : String) (v : JSVal) : AttrSet :=
  fun q => if q = k then some v else none

/-- Modelled from the spec: the Resolver collects all detector results
preserving configured order, then folds them left-to-right through merge. -/
def resolveOrdered (ds : List AttrSet) : AttrSet :=
  ds.foldl AttrSet.merge AttrSet.empty

/-- Modelled from the spec: the fan-out/fan-in join of the Resolver. Each
detector writes its result into its own configured slot when its I/O
completes; `sched` is the wall-clock completion order of the detector
indices. -/
def fillSlots (ds : List AttrSet) : List Nat → List (Option AttrSet) → List (Option AttrSet)
  | [], slots => slots
  | i :: rest, slots => fillSlots ds rest (slots.set i ds[i]?)

/-- Modelled from the spec: one concurrent run of the Resolver — detectors
complete in the order given by `sched`, their results are gathered into
configured slots, and the slots are folded in configured order (an unfilled
slot contributes the empty AttributeSet). -/
def resolveRun (ds : List AttrSet) (sched : List Nat) : AttrSet :=
  (fillSlots ds sched (List.replicate ds.length none)).foldl
    (fun acc slot => AttrSet.merge acc (slot.getD AttrSet.empty)) AttrSet.empty

/-- Detector D1 of the determinism example: always returns one attribute. -/
def dOne : AttrSet := fun k => if k = "a" then some (.jsStr "1") else none

/-- Detector D2 of the determinism example: always returns two attributes. -/
def dTwo : AttrSet :=
  fun k =>
    if k = "a" then some (.jsStr "2")
    else if k = "b" then some (.jsStr "3")
    else none

/-- The well-formed configuration document of the spec example. -/
def beanstalkDoc : String :=
  "\x7b\"environment_name\":\"prod\",\"version_label\":\"v1\",\"deployment_id\":\"i-123\"\x7d"

/-- A well-formed document missing the deployment_id field. -/
def partialDoc : String :=
  "\x7b\"environment_name\":\"prod\",\"version_label\":\"v1\"\x7d"

/-- A well-formed document that also carries service-name fields. -/
def serviceNameDoc : String :=
  "\x7b\"service.name\":\"mysvc\",\"service_name\":\"mysvc2\",\"environment_name\":\"prod\",\"version_label\":\"v1\",\"deployment_id\":\"i-123\"\x7d"

/-- The parsed form of serviceNameDoc. -/
def serviceNameVal : JSVal :=
  .jsObj [("service.name", .jsStr "mysvc"), ("service_name", .jsStr "mysvc2"),
          ("environment_name", .jsStr "prod"), ("version_label", .jsStr "v1"),
          ("deployment_id", .jsStr "i-123")]

theorem length_fillSlots (ds : List AttrSet) (sched : List Nat)
    (slots : List (Option AttrSet)) :
    (fillSlots ds sched slots).length = slots.length := by
  induction sched generalizing slots with
  | nil => rfl
  | cons i rest ih => simpa [fillSlots] using ih (slots.set i ds[i]?)

theorem getElem?_fillSlots_not_mem (ds : List AttrSet) (sched : List Nat)
    (slots : List (Option AttrSet)) (j : Nat) (hj : j ∉ sched) :
    (fillSlots ds sched slots)[j]? = slots[j]? := by
  induction sched generalizing slots with
  | nil => rfl
  | cons i rest ih =>
      have hji : j ≠ i := fun h => hj (h ▸ List.mem_cons_self i rest)
      have hjr : j ∉ rest := fun h => hj (List.mem_cons_of_mem i h)
      rw [fillSlots, ih (slots.set i ds[i]?) hjr, List.getElem?_set_ne hji.symm]

theorem getElem?_fillSlots_mem (ds : List AttrSet) (sched : List Nat)
    (slots : List (Option AttrSet)) (j : Nat) (hj : j ∈ sched)
    (hlt : j < slots.length) :
    (fillSlots ds sched slots)[j]? = some ds[j]? := by
  induction sched generalizing slots with
  | nil => exact absurd hj (List.not_mem_nil j)
  | cons i rest ih =>
      by_cases hjr : j ∈ rest
      · rw [fillSlots]
        exact ih (slots.set i ds[i]?) hjr (by simpa using hlt)
      · have hji : j = i := by
          rcases List.mem_cons.mp hj with h | h
          · exact h
          · exact absurd h hjr
        subst hji
        rw [fillSlots, getElem?_fillSlots_not_mem ds rest _ j hjr,
          List.getElem?_set_self (by simpa using hlt)]

theorem fillSlots_complete (ds : List AttrSet) (sched : List Nat)
    (hcover : ∀ i, i < ds.length → i ∈ sched) :
    fillSlots ds sched (List.replicate ds.length none) = ds.map some := by
  apply List.ext_getElem?
  intro j
  by_cases hj : j < ds.length
  · rw [getElem?_fillSlots_mem ds sched _ j (hcover j hj) (by simpa using hj),
      List.getElem?_map, List.getElem?_eq_getElem hj]
    rfl
  · push_neg at hj
    rw [List.getElem?_eq_none (by rw [length_fillSlots, List.length_replicate]; exact hj),
      List.getElem?_eq_none (by simpa using hj)]

theorem detect_success_eq (cfg : Option ResourceDetectionConfig) (content : String)
    (v : JSVal) (hparse : jsonParse content = some v) (hnull : v ≠ JSVal.jsNull) :
    detect cfg ⟨true, some content⟩ = successResource v := by
  cases v <;>
    simp_all [detect, detectBody, detectBodyRun]

/-- Claim C1: for every filesystem state, detect never lets a failure escape:
the body is total, and whenever the try-block body throws (access denied,
read failure, parse error, null field access), detect returns the empty
Resource rather than propagating the error. -/
theorem detect_never_throws (cfg : Option ResourceDetectionConfig) (env : FsEnv) :
    (∀ e, detectBody env = Except.error e → detect cfg env = Resource.empty) ∧
    (detect cfg env = Resource.empty ∨ detectBody env = Except.ok (detect cfg env)) := by
  constructor
  · intro e h
    unfold detect
    rw [h]
  · unfold detect
    cases hb : detectBody env with
    | error e => exact Or.inl rfl
    | ok r => exact Or.inr rfl

/-- Witness for C1 at a concrete unparseable filesystem state. -/
theorem detect_never_throws_witness :
    detectBody ⟨true, some "not json"⟩ = Except.error "JSON.parse SyntaxError" ∧
    detect none ⟨true, some "not json"⟩ = Resource.empty :=
  ⟨rfl, (detect_never_throws none ⟨true, some "not json"⟩).1 "JSON.parse SyntaxError" rfl⟩

/-- Claim C2: on the readable well-formed document of the spec example,
detect returns an AttributeSet containing cloud.provider=aws,
cloud.platform=aws_elastic_beanstalk, service.namespace=prod,
service.version=v1 and service.instance.id=i-123. -/
theorem detect_wellformed_attributes :
    (detect none ⟨true, some beanstalkDoc⟩).lookup CLOUD_PROVIDER
        = some (some (.jsStr "aws")) ∧
    (detect none ⟨true, some beanstalkDoc⟩).lookup CLOUD_PLATFORM
        = some (some (.jsStr "aws_elastic_beanstalk")) ∧
    (detect none ⟨true, some beanstalkDoc⟩).lookup SERVICE_NAMESPACE
        = some (some (.jsStr "prod")) ∧
    (detect none ⟨true, some beanstalkDoc⟩).lookup SERVICE_VERSION
        = some (some (.jsStr "v1")) ∧
    (detect none ⟨true, some beanstalkDoc⟩).lookup SERVICE_INSTANCE_ID
        = some (some (.jsStr "i-123")) :=
  ⟨rfl, rfl, rfl, rfl, rfl⟩

/-- Claim C3 (code bug): on a readable document missing deployment_id, the
detector does not omit the service.instance.id key — the returned
AttributeSet has the key present bound to undefined, violating the invariant
that a present key maps to a non-null value. -/
theorem detect_inserts_undefined_key :
    (detect none ⟨true, some partialDoc⟩).lookup SERVICE_INSTANCE_ID = some none ∧
    detect none ⟨true, some partialDoc⟩ ≠ Resource.empty := by
  refine ⟨rfl, ?_⟩
  intro h
  have h6 : (detect none ⟨true, some partialDoc⟩).attributes.length = 6 := rfl
  rw [h] at h6
  exact absurd h6 (by decide)

/-- Claim C4 counterexample: the content "42" is readable and parses as JSON,
but lacks the expected structure; detect nevertheless returns a non-empty
AttributeSet, not the empty one the claim requires. -/
theorem detect_nonobject_not_empty :
    jsonParse "42" = some (.jsNum 42) ∧
    detect none ⟨true, some "42"⟩ ≠ Resource.empty := by
  refine ⟨rfl, ?_⟩
  intro h
  have h6 : (detect none ⟨true, some "42"⟩).attributes.length = 6 := rfl
  rw [h] at h6
  exact absurd h6 (by decide)

/-- Claim C4 (amended): when the readable content fails to parse as JSON, or
parses to JSON null (so that the field access throws), detect returns the
empty AttributeSet exactly as for a missing file; content parsing to any
other JSON value takes the success path and yields the full constructed
AttributeSet, even when the expected fields are missing. -/
theorem detect_malformed (cfg : Option ResourceDetectionConfig) (content : String) :
    (jsonParse content = none → detect cfg ⟨true, some content⟩ = Resource.empty) ∧
    (jsonParse content = some JSVal.jsNull →
      detect cfg ⟨true, some content⟩ = Resource.empty) ∧
    (∀ v, jsonParse content = some v → v ≠ JSVal.jsNull →
      detect cfg ⟨true, some content⟩ = successResource v) := by
  refine ⟨?_, ?_, ?_⟩
  · intro h
    simp [detect, detectBody, detectBodyRun, h]
  · intro h
    simp [detect, detectBody, detectBodyRun, h]
  · intro v h hnull
    exact detect_success_eq cfg content v h hnull

/-- Witness for C4 at concrete unparseable and null contents. -/
theorem detect_malformed_witness :
    jsonParse "xyz" = none ∧
    detect none ⟨true, some "xyz"⟩ = Resource.empty ∧
    jsonParse "null" = some JSVal.jsNull ∧
    detect none ⟨true, some "null"⟩ = Resource.empty :=
  ⟨rfl, (detect_malformed none "xyz").1 rfl, rfl, (detect_malformed none "null").2.1 rfl⟩

/-- Claim C5 counterexample: the parsed structure carries a service name
(both as service.name and service_name), yet detect still sets service.name
to the platform constant — the constant is unconditional, not a default
applied only when a service name is absent. -/
theorem service_name_not_default :
    jsonParse serviceNameDoc = some serviceNameVal ∧
    jsMember serviceNameVal "service.name" = some (.jsStr "mysvc") ∧
    jsMember serviceNameVal "service_name" = some (.jsStr "mysvc2") ∧
    (detect none ⟨true, some serviceNameDoc⟩).lookup SERVICE_NAME
        = some (some (.jsStr "aws_elastic_beanstalk")) ∧
    (.jsStr "aws_elastic_beanstalk" : JSVal) ≠ .jsStr "mysvc" := by
  refine ⟨rfl, rfl, rfl, rfl, ?_⟩
  intro h
  injection h with h1
  exact absurd h1 (by decide)

/-- Claim C5 (amended): on the success path, service.name is always the
fixed platform constant regardless of the parsed structure, cloud.provider
and cloud.platform are always the fixed constants, and service.namespace,
service.version and service.instance.id are taken verbatim from the
environment_name, version_label and deployment_id fields. -/
theorem success_path_attributes (cfg : Option ResourceDetectionConfig)
    (content : String) (v : JSVal) (hparse : jsonParse content = some v)
    (hnull : v ≠ JSVal.jsNull) :
    (detect cfg ⟨true, some content⟩).lookup SERVICE_NAME
        = some (some (.jsStr AWS_ELASTIC_BEANSTALK)) ∧
    (detect cfg ⟨true, some content⟩).lookup CLOUD_PROVIDER
        = some (some (.jsStr CLOUD_PROVIDER_AWS)) ∧
    (detect cfg ⟨true, some content⟩).lookup CLOUD_PLATFORM
        = some (some (.jsStr AWS_ELASTIC_BEANSTALK)) ∧
    (detect cfg ⟨true, some content⟩).lookup SERVICE_NAMESPACE
        = some (jsMember v "environment_name") ∧
    (detect cfg ⟨true, some content⟩).lookup SERVICE_VERSION
        = some (jsMember v "version_label") ∧
    (detect cfg ⟨true, some content⟩).lookup SERVICE_INSTANCE_ID
        = some (jsMember v "deployment_id") := by
  rw [detect_success_eq cfg content v hparse hnull]
  exact ⟨rfl, rfl, rfl, rfl, rfl, rfl⟩

/-- Witness for C5 at the concrete document carrying a service name. -/
theorem success_path_attributes_witness :
    (detect none ⟨true, some serviceNameDoc⟩).lookup SERVICE_NAME
        = some (some (.jsStr AWS_ELASTIC_BEANSTALK)) ∧
    (detect none ⟨true, some serviceNameDoc⟩).lookup SERVICE_NAMESPACE
        = some (jsMember serviceNameVal "environment_name") :=
  ⟨(success_path_attributes none serviceNameDoc serviceNameVal rfl
      (fun h => JSVal.noConfusion h)).1,
   (success_path_attributes none serviceNameDoc serviceNameVal rfl
      (fun h => JSVal.noConfusion h)).2.2.2.1⟩

/-- Claim C6: merge precedence — a key bound in b wins with the value of b,
a key absent or empty in b keeps the value of a; in particular merging the
singleton k=v1 with the singleton k=v2 gives k=v2, and merging it with the
empty set leaves k=v1. -/
theorem merge_precedence :
    (∀ a b : AttrSet, ∀ k v, b k = some v → AttrSet.merge a b k = some v) ∧
    (∀ a b : AttrSet, ∀ k, b k = none → AttrSet.merge a b k = a k) ∧
    AttrSet.merge (AttrSet.single "k" (.jsStr "v1")) (AttrSet.single "k" (.jsStr "v2"))
        = AttrSet.single "k" (.jsStr "v2") ∧
    AttrSet.merge (AttrSet.single "k" (.jsStr "v1")) AttrSet.empty
        = AttrSet.single "k" (.jsStr "v1") := by
  refine ⟨?_, ?_, ?_, ?_⟩
  · intro a b k v h
    unfold AttrSet.merge
    rw [h]
  · intro a b k h
    unfold AttrSet.merge
    rw [h]
  · funext q
    by_cases h : q = "k" <;> simp [AttrSet.merge, AttrSet.single, h]
  · funext q
    by_cases h : q = "k" <;> simp [AttrSet.merge, AttrSet.single, AttrSet.empty, h]

/-- Witness for C6 at concrete singleton sets. -/
theorem merge_precedence_witness :
    AttrSet.merge AttrSet.empty (AttrSet.single "k" (.jsStr "v2")) "k"
        = some (.jsStr "v2") ∧
    AttrSet.merge (AttrSet.single "k" (.jsStr "v1")) AttrSet.empty "k"
        = AttrSet.single "k" (.jsStr "v1") "k" :=
  ⟨merge_precedence.1 AttrSet.empty (AttrSet.single "k" (.jsStr "v2")) "k"
      (.jsStr "v2") rfl,
   merge_precedence.2.1 (AttrSet.single "k" (.jsStr "v1")) AttrSet.empty "k" rfl⟩

/-- Claim C7: merge is idempotent — merging any AttributeSet with itself
gives it back. -/
theorem merge_idempotent (a : AttrSet) : AttrSet.merge a a = a := by
  funext k
  unfold AttrSet.merge
  cases a k <;> rfl

/-- Claim C8: the Resolver is deterministic in completion order — for every
detector list and every completion schedule covering all detectors, the
concurrent run equals the left-to-right fold of the results in configured
list order, so two runs differing only in completion order agree. -/
theorem resolve_deterministic (ds : List AttrSet) (sched : List Nat)
    (hcover : ∀ i, i < ds.length → i ∈ sched) :
    resolveRun ds sched = resolveOrdered ds := by
  unfold resolveRun resolveOrdered
  rw [fillSlots_complete ds sched hcover, List.foldl_map]
  simp only [Option.getD_some]

/-- Witness for C8: detectors D1 and D2 of the spec example with D2
completing first still give a=2 and b=3, the configured-order fold. -/
theorem resolve_deterministic_witness :
    resolveRun [dOne, dTwo] [1, 0] = resolveOrdered [dOne, dTwo] ∧
    resolveOrdered [dOne, dTwo] "a" = some (.jsStr "2") ∧
    resolveOrdered [dOne, dTwo] "b" = some (.jsStr "3") :=
  ⟨resolve_deterministic [dOne, dTwo] [1, 0] (by decide), rfl, rfl⟩

/-- Claim C9: when the configuration path is not read-accessible, detect
returns the empty Resource, and the only operation attempted is the access
probe — the file is neither read nor parsed. -/
theorem detect_inaccessible (cfg : Option ResourceDetectionConfig) (env : FsEnv)
    (hacc : env.accessOk = false) :
    detect cfg env = Resource.empty ∧
    detectOps env = [Op.accessCheck] ∧
    Op.readFile ∉ detectOps env ∧
    Op.parseJson ∉ detectOps env := by
  obtain ⟨a, r⟩ := env
  subst hacc
  have hops : detectOps ⟨false, r⟩ = [Op.accessCheck] := rfl
  refine ⟨rfl, hops, ?_, ?_⟩ <;> rw [hops] <;> decide

/-- Witness for C9 at a concrete inaccessible filesystem state. -/
theorem detect_inaccessible_witness :
    detect none ⟨false, some "\"ignored\""⟩ = Resource.empty ∧
    detectOps ⟨false, some "\"ignored\""⟩ = [Op.accessCheck] ∧
    Op.readFile ∉ detectOps ⟨false, some "\"ignored\""⟩ ∧
    Op.parseJson ∉ detectOps ⟨false, some "\"ignored\""⟩ :=
  detect_inaccessible none ⟨false, some "\"ignored\""⟩ rfl

/-- Claim C10: detect ignores its config argument — for every filesystem
state, any two config values (an omitted config included) give the same
result, so no per-detector timeout from the config is enforced inside
detect. -/
theorem detect_config_independent (c₁ c₂ : Option ResourceDetectionConfig)
    (env : FsEnv) : detect c₁ env = detect c₂ env := rfl

end AwsBeanstalk
